import Mathlib

/-!
Verification of the Larksuite-to-gateway bridge (bridge.mjs).

The definitions below are a shallow embedding of the message-bridging core
of src/bridge.mjs: the deduplicator, the session resolver, the group
relevance filter, the gateway exchange state machine (askMoltbot), the
reply-delivery phase and the webhook token gate of handleMessage and the
HTTP server.  Strings are Lean strings, machine time is a natural number
of milliseconds, and the mutable maps of the script are passed explicitly.
-/

/-! ## Character and string helpers mirroring the JavaScript semantics -/

/-- Membership in the JavaScript whitespace class (the set matched by the
regular-expression class backslash-s and trimmed by String.prototype.trim). -/
def isJsWhitespace (c : Char) : Bool :=
  c = ' ' || c = '\t' || c = '\n' || c = '\r' ||
  c.val = 11 || c.val = 12 || c.val = 160 || c.val = 0x1680 ||
  (0x2000 ≤ c.val && c.val ≤ 0x200a) ||
  c.val = 0x2028 || c.val = 0x2029 || c.val = 0x202f || c.val = 0x205f ||
  c.val = 0x3000 || c.val = 0xfeff

/-- JavaScript String.prototype.trim: drop leading and trailing whitespace. -/
def jsTrim (s : String) : String :=
  ⟨((s.data.dropWhile isJsWhitespace).reverse.dropWhile isJsWhitespace).reverse⟩

/-- JavaScript String.prototype.toLowerCase restricted to ASCII letters,
which is all the bridge ever lowercases. -/
def jsToLower (s : String) : String :=
  ⟨s.data.map Char.toLower⟩

/-- Does the first list occur as a prefix of the second one. -/
def startsWithChars : List Char → List Char → Bool
  | [], _ => true
  | _ :: _, [] => false
  | a :: w, b :: s => a = b && startsWithChars w s

/-- Does the first list occur as a contiguous sublist of the second
(JavaScript String.prototype.includes). -/
def containsChars (w : List Char) : List Char → Bool
  | [] => startsWithChars w []
  | c :: rest => startsWithChars w (c :: rest) || containsChars w rest

/-- JavaScript String.prototype.endsWith. -/
def endsWithStr (s suf : String) : Bool :=
  startsWithChars suf.data.reverse s.data.reverse

/-! ## Deduplicator (bridge.mjs lines 116-133) -/

/-- TTL of the dedup set, SEEN_TTL_MS = 10 * 60 * 1000. -/
def SEEN_TTL_MS : Nat := 10 * 60 * 1000

/-- The purge sweep at the top of isDuplicate: delete every record whose
timestamp is more than SEEN_TTL_MS in the past. -/
def purgeSeen (now : Nat) (seen : List (String × Nat)) : List (String × Nat) :=
  seen.filter (fun e => decide (now - e.2 ≤ SEEN_TTL_MS))

/-- Membership test of the seen map. -/
def seenHas (seen : List (String × Nat)) (k : String) : Bool :=
  seen.any (fun e => e.1 = k)

/-- Function isDuplicate of bridge.mjs: purge stale records, let an empty
id through, report a hit, or record the id at the current time.  The
mutable Map seen is threaded explicitly as an association list. -/
def isDuplicate (messageId : String) (now : Nat) (seen : List (String × Nat)) :
    Bool × List (String × Nat) :=
  let s := purgeSeen now seen
  if messageId = "" then (false, s)
  else if seenHas s messageId then (true, s)
  else (false, s ++ [(messageId, now)])

/-! ## Session resolver (bridge.mjs lines 424-447: sessionOverrides map) -/

/-- Lookup in the sessionOverrides map. -/
def ovLookup (m : List (String × String)) (k : String) : Option String :=
  match m.find? (fun e => e.1 = k) with
  | some e => some e.2
  | none => none

/-- Overwriting insert, the semantics of Map.prototype.set. -/
def ovSet (m : List (String × String)) (k v : String) : List (String × String) :=
  (k, v) :: m.filter (fun e => !(e.1 = k))

/-- Session key computation of handleMessage lines 446-447: the base key
with the stored suffix appended when one exists, else the base key. -/
def resolveKey (m : List (String × String)) (chatId : String) : String :=
  match ovLookup m chatId with
  | some suffix => "larksuite:" ++ chatId ++ ":" ++ suffix
  | none => "larksuite:" ++ chatId

/-- The reset path of handleMessage lines 424-427: store a fresh
time-based suffix for the conversation.  The suffix (Date.now in base 36
in the script) is passed in explicitly. -/
def applyReset (m : List (String × String)) (chatId newSuffix : String) :
    List (String × String) :=
  ovSet m chatId newSuffix

/-! ## Group relevance filter (bridge.mjs lines 320-329) -/

/-- ASCII word character, the regular-expression class backslash-w. -/
def isWordChar (c : Char) : Bool :=
  (97 ≤ c.val && c.val ≤ 122) || (65 ≤ c.val && c.val ≤ 90) ||
  (48 ≤ c.val && c.val ≤ 57) || c = '_'

/-- Match of a whole word at the head of a character list: the word is a
prefix and the character right after it, if any, is not a word character. -/
def wordAt : List Char → List Char → Bool
  | [], [] => true
  | [], c :: _ => !isWordChar c
  | _ :: _, [] => false
  | a :: w, b :: s => a = b && wordAt w s

/-- Scan for a word-boundary occurrence of a word; the boolean argument
records whether the current position sits at a word boundary. -/
def containsWordAux (w : List Char) : Bool → List Char → Bool
  | b, [] => b && wordAt w []
  | b, c :: rest => (b && wordAt w (c :: rest)) || containsWordAux w (!isWordChar c) rest

/-- The question words of the group filter regular expression. -/
def questionWords : List String :=
  ["why", "how", "what", "when", "where", "who", "help"]

/-- The Chinese action and request verbs of the group filter. -/
def chineseVerbs : List String :=
  ["帮", "麻烦", "请", "能否", "可以", "解释", "看看", "排查",
   "分析", "总结", "写", "改", "修", "查", "对比", "翻译"]

/-- The address terms of the anchored group filter regular expression. -/
def addressTerms : List String :=
  ["moltbot", "bot", "assistant", "助手", "智能体", "小机"]

/-- Separator class following an address term: whitespace, comma or colon,
in ASCII or full width. -/
def addressSep (c : Char) : Bool :=
  isJsWhitespace c || c = ',' || c = ':' || c = '，' || c = '：'

/-- Case-insensitive match of an address term at the start of the text,
followed by a separator character. -/
def addressAt : List Char → List Char → Bool
  | [], [] => false
  | [], c :: _ => addressSep c
  | _ :: _, [] => false
  | a :: w, b :: s => a.toLower = b.toLower && addressAt w s

/-- Does the text end in an ASCII or full-width question mark. -/
def endsWithQuestionMark (text : String) : Bool :=
  match text.data.getLast? with
  | some c => c = '?' || c = '？'
  | none => false

/-- Does the lowercased text contain a question word at word boundaries. -/
def hasQuestionWord (text : String) : Bool :=
  questionWords.any (fun w => containsWordAux w.data true (jsToLower text).data)

/-- Does the text contain one of the Chinese verbs (case-sensitive). -/
def hasChineseVerb (text : String) : Bool :=
  chineseVerbs.any (fun v => containsChars v.data text.data)

/-- Does the text start with an address term followed by a separator. -/
def startsWithAddress (text : String) : Bool :=
  addressTerms.any (fun term => addressAt term.data text.data)

/-- Function shouldRespondInGroup of bridge.mjs: the sequence of early
returns of lines 320-329. -/
def shouldRespondInGroup (text : String) (mentions : List String) : Bool :=
  if mentions.length > 0 then true
  else if endsWithQuestionMark text then true
  else if hasQuestionWord text then true
  else if hasChineseVerb text then true
  else if startsWithAddress text then true
  else false

/-! ## Mention stripping (bridge.mjs line 418) -/

/-- Number of leading ASCII digits. -/
def countLeadingDigits : List Char → Nat
  | [] => 0
  | c :: rest => if c.isDigit then countLeadingDigits rest + 1 else 0

/-- Number of leading JavaScript whitespace characters. -/
def countLeadingJsSpace : List Char → Nat
  | [] => 0
  | c :: rest => if isJsWhitespace c then countLeadingJsSpace rest + 1 else 0

/-- Length of a match of the mention pattern (the at-sign, the literal
text underscore-user-underscore, one or more digits, then any trailing
whitespace) at the head of the list, if it matches there. -/
def matchMention (s : List Char) : Option Nat :=
  if startsWithChars "@_user_".data s then
    let rest := s.drop 7
    let d := countLeadingDigits rest
    if d = 0 then none
    else some (7 + d + countLeadingJsSpace (rest.drop d))
  else none

/-- Global replacement of the mention pattern by the empty string, as
String.prototype.replace with the global flag: scan left to right, on a
match skip it, otherwise keep the character.  The fuel argument is the
length of the remaining input, which bounds the recursion. -/
def stripMentionsGo : Nat → List Char → List Char
  | 0, s => s
  | _ + 1, [] => []
  | fuel + 1, c :: rest =>
    match matchMention (c :: rest) with
    | some n => stripMentionsGo fuel (rest.drop (n - 1))
    | none => c :: stripMentionsGo fuel rest

/-- Strip every mention token from the text. -/
def stripMentions (s : String) : String :=
  ⟨stripMentionsGo s.data.length s.data⟩

/-! ## Gateway exchange state machine (bridge.mjs lines 219-316, askMoltbot) -/

/-- Data object of a stream event payload; absent fields are none, as
with missing JavaScript object properties. -/
structure GwData where
  text : Option String := none
  delta : Option String := none
  mediaUrls : Option (List String) := none
  phase : Option String := none
  message : Option String := none
  deriving Repr, DecidableEq

/-- Payload of a gateway event frame. -/
structure GwPayload where
  runId : Option String := none
  stream : Option String := none
  data : Option GwData := none
  deriving Repr, DecidableEq

/-- A parsed gateway frame: an event, a response (with its ok flag, its
error message and the run id of its payload when present), or any other
frame shape, which the handler ignores. -/
inductive GwFrame where
  | event (name : String) (payload : Option GwPayload)
  | res (id : String) (ok : Bool) (errMsg : Option String) (runId : Option String)
  | other
  deriving Repr, DecidableEq

/-- One input to the exchange: a message frame, an unparseable message
(the empty catch on JSON.parse), or an error event of the socket. -/
inductive GwInput where
  | frame (f : GwFrame)
  | badJson
  | wsError (msg : String)
  deriving Repr, DecidableEq

/-- Terminal outcome of askMoltbot: the resolved reply or the rejection
message. -/
inductive GwOutcome where
  | success (text : String) (mediaUrls : List String)
  | failure (msg : String)
  deriving Repr, DecidableEq

/-- The local state of one askMoltbot invocation: the recorded run id,
the reply buffer, the accumulated media list, how many times close was
invoked, and the ids of the requests sent so far. -/
structure GwState where
  runId : Option String
  buf : String
  mediaUrls : List String
  closes : Nat
  sent : List String
  deriving Repr, DecidableEq

/-- State at the start of an exchange. -/
def gwInit : GwState :=
  { runId := none, buf := "", mediaUrls := [], closes := 0, sent := [] }

/-- The close helper of askMoltbot. -/
def gwClose (st : GwState) : GwState :=
  { st with closes := st.closes + 1 }

/-- The run-id filter at line 299: a frame is discarded when its payload
run id differs from the recorded one, once one is known. -/
def runMismatch (recorded payloadRun : Option String) : Bool :=
  match recorded with
  | some r => !(payloadRun = some r)
  | none => false

/-- The assistant branch at lines 301-307: a full text overwrites the
buffer, otherwise a delta appends to it; a media list replaces the
accumulated one. -/
def applyAssistant (st : GwState) (d : GwData) : GwState :=
  { st with
    buf :=
      match d.text with
      | some t => t
      | none =>
        match d.delta with
        | some dl => st.buf ++ dl
        | none => st.buf
    mediaUrls :=
      match d.mediaUrls with
      | some l => l
      | none => st.mediaUrls }

/-- One step of the askMoltbot message handler.  The left summand is the
next state of a still-running exchange; the right summand carries the
terminal outcome together with the final state. -/
def gwStep (st : GwState) (i : GwInput) : GwState ⊕ (GwOutcome × GwState) :=
  match i with
  | .wsError e => .inr (.failure e, gwClose st)
  | .badJson => .inl st
  | .frame .other => .inl st
  | .frame (.res id ok errMsg rid) =>
    if id = "connect" then
      if ok then .inl { st with sent := st.sent ++ ["chat-send"] }
      else .inr (.failure (errMsg.getD "connect failed"), gwClose st)
    else if id = "chat-send" then
      if ok then
        match rid with
        | some r => .inl { st with runId := some r }
        | none => .inl st
      else .inr (.failure (errMsg.getD "chat.send failed"), gwClose st)
    else .inl st
  | .frame (.event name payload) =>
    if name = "connect.challenge" then
      .inl { st with sent := st.sent ++ ["connect"] }
    else if name = "agent" ∨ name = "chat" then
      match payload with
      | none => .inl st
      | some p =>
        if runMismatch st.runId p.runId then .inl st
        else if p.stream = some "assistant" then
          .inl (applyAssistant st (p.data.getD {}))
        else if p.stream = some "lifecycle" then
          if (p.data.getD {}).phase = some "end" then
            .inr (.success (jsTrim st.buf) st.mediaUrls, gwClose st)
          else if (p.data.getD {}).phase = some "error" then
            .inr (.failure (((p.data.getD {}).message).getD "agent error"), gwClose st)
          else .inl st
        else .inl st
    else .inl st

/-- Feed a list of inputs to the machine, stopping at the first terminal
outcome (the promise of askMoltbot settles once). -/
def gwRun (st : GwState) : List GwInput → Option GwOutcome × GwState
  | [] => (none, st)
  | i :: rest =>
    match gwStep st i with
    | .inl st2 => gwRun st2 rest
    | .inr (o, st2) => (some o, st2)

/-! ## Reply delivery (bridge.mjs lines 476-523) -/

/-- Visible side effect of the delivery phase of handleMessage. -/
inductive DeliverAction where
  | deleteMsg (id : String)
  | patchMsg (id : String) (text : String)
  | sendText (text : String)
  | sendImage (url : String)
  deriving Repr, DecidableEq

/-- Delivery phase of handleMessage: trim the reply; an empty reply, the
sentinel NO_REPLY, or a reply ending in the sentinel deletes the
placeholder (when one was sent) and sends nothing; otherwise the text is
patched into the placeholder or sent fresh, and each media url is sent
afterwards.  The placeholder id is the script's placeholderId string,
empty when no placeholder was sent. -/
def deliverReply (replyText : String) (mediaUrls : List String)
    (placeholderId : String) : List DeliverAction :=
  let trimmed := jsTrim replyText
  if trimmed = "" ∨ trimmed = "NO_REPLY" ∨ endsWithStr trimmed "NO_REPLY" then
    if placeholderId = "" then [] else [DeliverAction.deleteMsg placeholderId]
  else
    (if placeholderId = "" then [DeliverAction.sendText trimmed]
     else [DeliverAction.patchMsg placeholderId trimmed])
    ++ mediaUrls.map DeliverAction.sendImage

/-! ## Router core (bridge.mjs lines 414-447 of handleMessage) -/

/-- Outcome of the routing stage of handleMessage, between content
extraction and the gateway call: an early return, the reset command with
its confirmation, the status report, or a gateway exchange on the given
text and session key. -/
inductive RouteOutcome where
  | skip
  | resetAck (chatId : String) (newSuffix : String)
  | statusReport (sessionKey : String)
  | exchange (text : String) (sessionKey : String)
  deriving Repr, DecidableEq

/-- The command and session stage shared by group and direct chats
(lines 424-447). -/
def routeCommands (text : String) (chatId newSuffix : String)
    (m : List (String × String)) : RouteOutcome × List (String × String) :=
  if jsToLower (jsTrim text) = "/reset" then
    (.resetAck chatId newSuffix, applyReset m chatId newSuffix)
  else if jsToLower (jsTrim text) = "/status" then
    (.statusReport (resolveKey m chatId), m)
  else
    (.exchange text (resolveKey m chatId), m)

/-- Routing stage of handleMessage from line 414 on: drop empty content;
for a group chat strip the mention tokens, drop again when empty, and
apply the group filter when no media is attached; then recognize the two
commands and otherwise resolve the session key for the exchange.  The
fresh reset suffix (Date.now in base 36) is passed in explicitly. -/
def routeMessage (chatType text : String) (hasMedia : Bool)
    (mentions : List String) (chatId newSuffix : String)
    (m : List (String × String)) : RouteOutcome × List (String × String) :=
  if text = "" && !hasMedia then (.skip, m)
  else if chatType = "group" then
    let t := jsTrim (stripMentions text)
    if t = "" && !hasMedia then (.skip, m)
    else if !hasMedia && !shouldRespondInGroup t mentions then (.skip, m)
    else routeCommands t chatId newSuffix m
  else routeCommands text chatId newSuffix m

/-! ## Webhook token gate (bridge.mjs lines 551-626, the HTTP server) -/

/-- Parsed POST body after the optional decryption step, restricted to
the fields the dispatch logic reads. -/
structure WebhookBody where
  typ : Option String := none
  challenge : Option String := none
  token : Option String := none
  hasEvent : Bool := false
  eventType : Option String := none
  deriving Repr, DecidableEq

/-- JavaScript truthiness of an optional string field. -/
def strTruthy : Option String → Bool
  | none => false
  | some s => !(s = "")

/-- Dispatch of a parsed POST body: answer a url-verification challenge,
reject on the token gate of line 606, else acknowledge and report whether
a message event is dispatched to handleMessage.  The result is the HTTP
status together with that dispatch flag. -/
def handleWebhook (verificationToken : String) (b : WebhookBody) : Nat × Bool :=
  if b.typ = some "url_verification" then (200, false)
  else if verificationToken ≠ "" ∧ strTruthy b.token = true ∧ b.token ≠ some verificationToken then
    (401, false)
  else if b.hasEvent ∧ b.eventType = some "im.message.receive_v1" then (200, true)
  else (200, false)

/-! ## Theorems -/

theorem gwStep_inl_closes (st : GwState) (i : GwInput) (st2 : GwState)
    (h : gwStep st i = Sum.inl st2) : st2.closes = st.closes := by
  rcases i with (⟨name, payload⟩ | ⟨id, ok, errMsg, rid⟩ | _) | _ | e <;>
    simp only [gwStep] at h <;>
    repeat' split at h
  all_goals try simp_all [gwClose, applyAssistant]
  all_goals (subst h; rfl)

theorem gwStep_inr_closes (st : GwState) (i : GwInput) (o : GwOutcome) (st2 : GwState)
    (h : gwStep st i = Sum.inr (o, st2)) : st2.closes = st.closes + 1 := by
  rcases i with (⟨name, payload⟩ | ⟨id, ok, errMsg, rid⟩ | _) | _ | e <;>
    simp only [gwStep] at h <;>
    repeat' split at h
  all_goals try simp_all [gwClose, applyAssistant]
  all_goals (obtain ⟨h1, h2⟩ := h; subst h2; rfl)

theorem gwRun_closes_aux (inputs : List GwInput) :
    ∀ st : GwState, st.closes = 0 → ∀ o stf, gwRun st inputs = (some o, stf) →
      stf.closes = 1 := by
  induction inputs with
  | nil => intro st h0 o stf h; simp [gwRun] at h
  | cons i rest ih =>
    intro st h0 o stf h
    rw [gwRun] at h
    cases hstep : gwStep st i with
    | inl st2 =>
      rw [hstep] at h
      exact ih st2 (by rw [gwStep_inl_closes st i st2 hstep, h0]) o stf h
    | inr p =>
      obtain ⟨o2, st2⟩ := p
      rw [hstep] at h
      simp at h
      obtain ⟨ho, hst⟩ := h
      subst hst
      rw [gwStep_inr_closes st i o2 st2 hstep, h0]

/-- C2: on every path by which askMoltbot reaches a terminal outcome, the
WebSocket transport is closed exactly once. -/
theorem askMoltbot_close_once (inputs : List GwInput) (o : GwOutcome) (stf : GwState)
    (h : gwRun gwInit inputs = (some o, stf)) : stf.closes = 1 :=
  gwRun_closes_aux inputs gwInit rfl o stf h

theorem askMoltbot_close_once_witness :
    (gwRun gwInit [GwInput.frame (GwFrame.event "connect.challenge" none),
       GwInput.frame (GwFrame.res "connect" false none none)]).2.closes = 1 :=
  askMoltbot_close_once
    [GwInput.frame (GwFrame.event "connect.challenge" none),
     GwInput.frame (GwFrame.res "connect" false none none)]
    (GwOutcome.failure "connect failed")
    (gwRun gwInit [GwInput.frame (GwFrame.event "connect.challenge" none),
       GwInput.frame (GwFrame.res "connect" false none none)]).2
    rfl

/-- C1: the happy-path frame sequence terminates the exchange with
success and the reply text Hello. -/
theorem askMoltbot_happy_path :
    (gwRun gwInit
      [GwInput.frame (GwFrame.event "connect.challenge" none),
       GwInput.frame (GwFrame.res "connect" true none none),
       GwInput.frame (GwFrame.res "chat-send" true none (some "run-1")),
       GwInput.frame (GwFrame.event "chat" (some
         { runId := some "run-1", stream := some "assistant",
           data := some { text := some "Hello" } })),
       GwInput.frame (GwFrame.event "chat" (some
         { runId := some "run-1", stream := some "lifecycle",
           data := some { phase := some "end" } }))]).1
    = some (GwOutcome.success "Hello" []) := rfl

theorem runMismatch_self (x : Option String) : runMismatch x x = false := by
  cases x <;> simp [runMismatch]

/-- C3: while streaming, a frame for another run id is discarded whole; an
assistant frame with a full text overwrites the buffer, one with only a
delta appends, and a media list replaces the accumulated one. -/
theorem askMoltbot_stream_frames :
    (∀ (st : GwState) (p : GwPayload) (name r : String),
      (name = "agent" ∨ name = "chat") → st.runId = some r → p.runId ≠ some r →
      gwStep st (GwInput.frame (GwFrame.event name (some p))) = Sum.inl st)
    ∧ (∀ (st : GwState) (p : GwPayload) (d : GwData) (t : String),
      p.runId = st.runId → p.stream = some "assistant" → p.data = some d →
      d.text = some t →
      ∃ st2, gwStep st (GwInput.frame (GwFrame.event "chat" (some p))) = Sum.inl st2 ∧
        st2.buf = t)
    ∧ (∀ (st : GwState) (p : GwPayload) (d : GwData) (dl : String),
      p.runId = st.runId → p.stream = some "assistant" → p.data = some d →
      d.text = none → d.delta = some dl →
      ∃ st2, gwStep st (GwInput.frame (GwFrame.event "chat" (some p))) = Sum.inl st2 ∧
        st2.buf = st.buf ++ dl)
    ∧ (∀ (st : GwState) (p : GwPayload) (d : GwData) (l : List String),
      p.runId = st.runId → p.stream = some "assistant" → p.data = some d →
      d.mediaUrls = some l →
      ∃ st2, gwStep st (GwInput.frame (GwFrame.event "chat" (some p))) = Sum.inl st2 ∧
        st2.mediaUrls = l) := by
  refine ⟨?_, ?_, ?_, ?_⟩
  · intro st p name r hname hrec hmis
    rcases hname with h | h <;> subst h <;>
      simp [gwStep, runMismatch, hrec, hmis]
  · intro st p d t hrun hstream hdata htext
    refine ⟨applyAssistant st d, ?_, ?_⟩
    · simp [gwStep, hrun, runMismatch_self, hstream, hdata]
    · simp [applyAssistant, htext]
  · intro st p d dl hrun hstream hdata htext hdelta
    refine ⟨applyAssistant st d, ?_, ?_⟩
    · simp [gwStep, hrun, runMismatch_self, hstream, hdata]
    · simp [applyAssistant, htext, hdelta]
  · intro st p d l hrun hstream hdata hmedia
    refine ⟨applyAssistant st d, ?_, ?_⟩
    · simp [gwStep, hrun, runMismatch_self, hstream, hdata]
    · simp [applyAssistant, hmedia]

theorem askMoltbot_stream_frames_witness :
    gwStep { runId := some "r1", buf := "abc", mediaUrls := [], closes := 0, sent := [] }
      (GwInput.frame (GwFrame.event "chat" (some
        { runId := some "r2", stream := some "assistant",
          data := some { text := some "ignored" } })))
    = Sum.inl { runId := some "r1", buf := "abc", mediaUrls := [], closes := 0, sent := [] } :=
  askMoltbot_stream_frames.1
    { runId := some "r1", buf := "abc", mediaUrls := [], closes := 0, sent := [] }
    { runId := some "r2", stream := some "assistant", data := some { text := some "ignored" } }
    "chat" "r1" (Or.inr rfl) rfl (by decide)

/-- C4: a second sighting of an id within the TTL is a duplicate, a
sighting whose gap from every recorded timestamp exceeds the TTL is not,
the state after any call holds no record older than the TTL, a fresh id
is recorded at the current time, and an empty id is never a duplicate. -/
theorem isDuplicate_spec :
    (∀ (mid : String) (t0 t1 : Nat) (s : List (String × Nat)),
      mid ≠ "" → (isDuplicate mid t0 s).1 = false → t1 - t0 ≤ SEEN_TTL_MS →
      (isDuplicate mid t1 (isDuplicate mid t0 s).2).1 = true)
    ∧ (∀ (mid : String) (t1 : Nat) (s : List (String × Nat)),
      (∀ ts, (mid, ts) ∈ s → SEEN_TTL_MS < t1 - ts) →
      (isDuplicate mid t1 s).1 = false)
    ∧ (∀ (mid : String) (now : Nat) (s : List (String × Nat)) (e : String × Nat),
      e ∈ (isDuplicate mid now s).2 → now - e.2 ≤ SEEN_TTL_MS)
    ∧ (∀ (mid : String) (now : Nat) (s : List (String × Nat)),
      mid ≠ "" → (isDuplicate mid now s).1 = false →
      (mid, now) ∈ (isDuplicate mid now s).2)
    ∧ (∀ (now : Nat) (s : List (String × Nat)), (isDuplicate "" now s).1 = false) := by
  refine ⟨?_, ?_, ?_, ?_, ?_⟩
  · intro mid t0 t1 s hne h0 hle
    simp only [isDuplicate, if_neg hne] at h0 ⊢
    by_cases hh : seenHas (purgeSeen t0 s) mid
    · simp [hh] at h0
    · simp only [hh, Bool.false_eq_true, if_false, Bool.if_false_left]
      have hh2 : seenHas (purgeSeen t1 (purgeSeen t0 s ++ [(mid, t0)])) mid = true := by
        unfold seenHas purgeSeen
        rw [List.any_eq_true]
        refine ⟨(mid, t0), List.mem_filter.mpr ⟨by simp, by simpa using hle⟩, by simp⟩
      simp [hh2]
  · intro mid t1 s hall
    simp only [isDuplicate]
    by_cases hid : mid = ""
    · simp [hid]
    · have hh : seenHas (purgeSeen t1 s) mid = false := by
        unfold seenHas purgeSeen
        rw [List.any_eq_false]
        intro e he
        rw [List.mem_filter] at he
        obtain ⟨hmem, hpred⟩ := he
        simp only [decide_eq_true_eq] at hpred
        simp only [decide_eq_true_eq]
        intro heq
        have hms : (mid, e.2) ∈ s := by
          have he2 : e = (mid, e.2) := by
            rw [← heq]
          rw [← he2]
          exact hmem
        have := hall e.2 hms
        omega
      simp [hid, hh]
  · intro mid now s e he
    simp only [isDuplicate] at he
    split at he
    · unfold purgeSeen at he
      rw [List.mem_filter] at he
      simpa using he.2
    · split at he
      · unfold purgeSeen at he
        rw [List.mem_filter] at he
        simpa using he.2
      · simp only [List.mem_append] at he
        rcases he with he | he
        · unfold purgeSeen at he
          rw [List.mem_filter] at he
          simpa using he.2
        · simp only [List.mem_singleton] at he
          rw [he]
          simp
  · intro mid now s hne h0
    simp only [isDuplicate, if_neg hne] at h0 ⊢
    by_cases hh : seenHas (purgeSeen now s) mid
    · simp [hh] at h0
    · simp [hh]
  · intro now s
    simp [isDuplicate]

theorem isDuplicate_spec_witness :
    (isDuplicate "m1" 600001 (isDuplicate "m1" 1 []).2).1 = true :=
  isDuplicate_spec.1 "m1" 1 600001 [] (by decide) (by decide) (by decide)

theorem stringAppendCancelLeft (a b c : String) (h : a ++ b = a ++ c) : b = c := by
  have hd : (a ++ b).data = (a ++ c).data := by rw [h]
  rw [String.data_append, String.data_append] at hd
  have hbc := List.append_cancel_left hd
  cases b; cases c; simp_all

theorem ovLookup_set_self (m : List (String × String)) (k v : String) :
    ovLookup (ovSet m k v) k = some v := by
  simp [ovLookup, ovSet, List.find?]

/-- C5: the session key is the base key with the stored suffix appended
when one exists, else the base key alone; resolution is a pure read, so
resolving twice without a reset yields the same key; and a reset with a
suffix new for the conversation yields a key different from the base key
and from every key a previously stored suffix produced. -/
theorem resolveKey_spec :
    (∀ (m : List (String × String)) (c : String), resolveKey m c = resolveKey m c)
    ∧ (∀ (m : List (String × String)) (c s : String),
        ovLookup m c = some s → resolveKey m c = "larksuite:" ++ c ++ ":" ++ s)
    ∧ (∀ (m : List (String × String)) (c : String),
        ovLookup m c = none → resolveKey m c = "larksuite:" ++ c)
    ∧ (∀ (m : List (String × String)) (c snew : String) (prior : List String),
        snew ∉ prior →
        ∀ k, (k = "larksuite:" ++ c ∨ ∃ s2 ∈ prior, k = "larksuite:" ++ c ++ ":" ++ s2) →
        resolveKey (applyReset m c snew) c ≠ k) := by
  refine ⟨fun _ _ => rfl, ?_, ?_, ?_⟩
  · intro m c s h
    simp [resolveKey, h]
  · intro m c h
    simp [resolveKey, h]
  · intro m c snew prior hnotin k hk
    have hres : resolveKey (applyReset m c snew) c = "larksuite:" ++ c ++ ":" ++ snew := by
      simp [resolveKey, applyReset, ovLookup_set_self]
    rw [hres]
    rcases hk with hk | ⟨s2, hs2, hk⟩
    · rw [hk]
      intro heq
      have hlen := congrArg String.length heq
      rw [String.length_append, String.length_append] at hlen
      have hone : (":" : String).length = 1 := rfl
      omega
    · rw [hk]
      intro heq
      have := stringAppendCancelLeft ("larksuite:" ++ c ++ ":") snew s2 heq
      exact hnotin (this ▸ hs2)

theorem resolveKey_spec_witness :
    resolveKey (applyReset [] "c1" "b") "c1" ≠ "larksuite:c1" :=
  resolveKey_spec.2.2.2 [] "c1" "b" ["a"] (by decide) "larksuite:c1" (Or.inl rfl)

/-- C6: the group filter answers true exactly when mentions are present,
the text ends with a question mark, contains a question word, contains a
Chinese request verb, or starts with an address term; in particular it
accepts the deploy question, rejects a bare thanks, and accepts any text
when mentions are present. -/
theorem shouldRespondInGroup_spec :
    (∀ (text : String) (mentions : List String),
      shouldRespondInGroup text mentions = true ↔
        (mentions ≠ [] ∨ endsWithQuestionMark text = true ∨ hasQuestionWord text = true ∨
         hasChineseVerb text = true ∨ startsWithAddress text = true))
    ∧ shouldRespondInGroup "how do I deploy this?" [] = true
    ∧ shouldRespondInGroup "ok thanks" [] = false
    ∧ (∀ (text m : String) (ms : List String),
        shouldRespondInGroup text (m :: ms) = true) := by
  refine ⟨?_, by decide, by decide, ?_⟩
  · intro text mentions
    unfold shouldRespondInGroup
    by_cases h1 : mentions.length > 0
    · have hne : mentions ≠ [] := by
        intro h
        rw [h] at h1
        simp at h1
      simp [h1, hne]
    · have hm : mentions = [] := by
        cases mentions with
        | nil => rfl
        | cons a l => simp at h1
      subst hm
      simp only [h1, if_false]
      repeat' split
      all_goals simp_all
  · intro text m ms
    simp [shouldRespondInGroup]

/-- C7: a reply whose trimmed text is empty or equal to the sentinel
NO_REPLY deletes the placeholder when one was sent and sends nothing
else, neither text nor media. -/
theorem deliverReply_silent (replyText : String) (media : List String) (pid : String)
    (h : jsTrim replyText = "" ∨ jsTrim replyText = "NO_REPLY") :
    deliverReply replyText media pid =
      if pid = "" then [] else [DeliverAction.deleteMsg pid] := by
  unfold deliverReply
  rcases h with h | h <;> simp [h]

theorem deliverReply_silent_witness :
    deliverReply "NO_REPLY" ["u1"] "ph1" = [DeliverAction.deleteMsg "ph1"] := by
  have h := deliverReply_silent "NO_REPLY" ["u1"] "ph1" (Or.inr (by decide))
  simpa using h

/-- C10: in a group with no media and no mentions the text /reset fails
the group relevance filter, so handleMessage returns before the reset
command is recognized: the override map is unchanged and no confirmation
is sent. -/
theorem group_reset_filtered (m : List (String × String)) (chatId newSuffix : String) :
    routeMessage "group" "/reset" false [] chatId newSuffix m = (RouteOutcome.skip, m) := rfl

/-- C8 refuted at a concrete input: in a direct chat the mention token
reaches the exchange unstripped, while the same text in a group chat is
stripped. -/
theorem mention_strip_direct_counterexample :
    (routeMessage "p2p" "@_user_1 hi" false [] "c1" "sfx" []).1
      = RouteOutcome.exchange "@_user_1 hi" "larksuite:c1"
    ∧ stripMentions "@_user_1 hi" ≠ "@_user_1 hi"
    ∧ (routeMessage "group" "@_user_1 hi" false ["u"] "c1" "sfx" []).1
      = RouteOutcome.exchange "hi" "larksuite:c1" :=
  ⟨rfl, by decide, rfl⟩

/-- C8 amended: mention tokens are stripped before command recognition,
session resolution and the gateway exchange for group events only; for a
non-group chat the text reaches the exchange unchanged. -/
theorem mention_strip_stage :
    (∀ (text : String) (hasMedia : Bool) (mentions : List String) (c sfx : String)
        (m : List (String × String)) (t2 k : String),
      (routeMessage "group" text hasMedia mentions c sfx m).1 = RouteOutcome.exchange t2 k →
      t2 = jsTrim (stripMentions text))
    ∧ (∀ (ct text : String) (hasMedia : Bool) (mentions : List String) (c sfx : String)
        (m : List (String × String)) (t2 k : String), ct ≠ "group" →
      (routeMessage ct text hasMedia mentions c sfx m).1 = RouteOutcome.exchange t2 k →
      t2 = text) := by
  constructor
  · intro text hasMedia mentions c sfx m t2 k h
    simp only [routeMessage, routeCommands] at h
    repeat' split at h
    all_goals simp_all
  · intro ct text hasMedia mentions c sfx m t2 k hct h
    simp only [routeMessage, routeCommands, if_neg hct] at h
    repeat' split at h
    all_goals simp_all

theorem mention_strip_stage_witness :
    "hello?" = jsTrim (stripMentions "@_user_1 hello?") :=
  mention_strip_stage.1 "@_user_1 hello?" false [] "c1" "s" [] "hello?" "larksuite:c1" rfl

/-- C9 refuted at a concrete input: with a verification token configured,
a body whose token field is the empty string does not match it, yet the
request is answered 200 and the event is dispatched. -/
theorem webhook_token_counterexample :
    handleWebhook "secret"
      { typ := none, challenge := none, token := some "", hasEvent := true,
        eventType := some "im.message.receive_v1" } = (200, true)
    ∧ (some "" : Option String) ≠ some "secret" :=
  ⟨rfl, by decide⟩

/-- C9 amended: when a verification token is configured and a non-challenge
body carries a non-empty token different from it, the request is rejected
with status 401 and no event processing occurs. -/
theorem webhook_token_reject (vt : String) (b : WebhookBody) (t : String)
    (hnv : b.typ ≠ some "url_verification") (hvt : vt ≠ "")
    (htok : b.token = some t) (ht : t ≠ "") (hne : t ≠ vt) :
    handleWebhook vt b = (401, false) := by
  unfold handleWebhook
  rw [if_neg hnv, if_pos]
  exact ⟨hvt, by simp [strTruthy, htok, ht], by simp [htok, hne]⟩

theorem webhook_token_reject_witness :
    handleWebhook "secret"
      { typ := none, challenge := none, token := some "x", hasEvent := true,
        eventType := some "im.message.receive_v1" } = (401, false) :=
  webhook_token_reject "secret"
    { typ := none, challenge := none, token := some "x", hasEvent := true,
      eventType := some "im.message.receive_v1" }
    "x" (by decide) (by decide) rfl (by decide) (by decide)
